import Mathlib

/-!
Shallow embedding of the OPC UA node-set generator
(`aas_core_codegen/opcua/main.py` and `aas_core_codegen/opcua/naming.py`),
together with proofs of the specified properties.

The upstream intermediate representation (module `aas_core_codegen.intermediate`)
is not part of the sources; the input data model is therefore modelled from the
specification (its §3 "DATA MODEL"), restricted to the fields the generator reads.
-/

set_option autoImplicit false

namespace Opcua

/-- Modelled from the spec: the five primitive kinds of
`intermediate.PrimitiveType` (§3: kind ∈ \x7bbool, int, float, string, byte-array\x7d). -/
inductive PrimitiveType where
  | bool
  | int
  | float
  | str
  | bytearray
  deriving DecidableEq, Repr

/-- Modelled from the spec: the kind of entity an `OurTypeAnno` refers to.
The source dispatches on `isinstance(type_anno.our_type, ...)` over
`Enumeration`, `AbstractClass`, `ConcreteClass`, with a catch-all raise for any
other referent (e.g. a constrained primitive). -/
inductive OurTypeKind where
  | enumeration
  | abstractClass
  | concreteClass
  | constrainedPrimitive
  deriving DecidableEq, Repr

/-- Modelled from the spec: a reference to a model entity, as carried by an
`OurTypeAnnotation`.  The generator reads only the kind and name of the referent. -/
structure OurTypeRef where
  kind : OurTypeKind
  name : String
  deriving DecidableEq, Repr

/-- Modelled from the spec: the closed variant set of `TypeAnno`
(§3): `Primitive(kind)`, `Reference(entity)`, `List(item)`, `Optional(inner)`. -/
inductive TypeAnno where
  | primitive (a_type : PrimitiveType)
  | our (our_type : OurTypeRef)
  | list (item : TypeAnno)
  | optional (value : TypeAnno)
  deriving DecidableEq, Repr

/-- Modelled from the spec: a property is a name plus a type annotation (§3). -/
structure Property where
  name : String
  type_anno : TypeAnno
  deriving DecidableEq, Repr

/-- Modelled from the spec: an enumeration literal with a name and an
underlying value (emitted verbatim as a string). -/
structure EnumerationLiteral where
  name : String
  value : String
  deriving DecidableEq, Repr

/-- Modelled from the spec: an `Enumeration` entity with ordered literals (§3). -/
structure Enumeration where
  name : String
  literals : List EnumerationLiteral
  deriving DecidableEq, Repr

/-- Modelled from the spec: a `Class` entity (abstract or concrete) with a
zero-or-one base class and an ordered sequence of properties (§3).
The generator never reads `base` nor `is_concrete`; they are kept so that the
baseline-inheritance behaviour (claim about `HasSubtype` always pointing at
`i=22`) can be stated for classes with and without an explicit parent. -/
structure Class where
  name : String
  is_concrete : Bool
  base : Option String
  properties : List Property
  deriving DecidableEq, Repr

/-- Modelled from the spec: the model header data (URI, version, publication
date) that §4.7 says the document header should record.  The generator under
`src/` never reads these fields; they are kept so that the header claims can be
compared against them. -/
structure MetaModel where
  uri : String
  version : String
  publication_date : String
  deriving DecidableEq, Repr

/-- Modelled from the spec: the symbol table — ordered enumerations and ordered
classes (§3), plus the model header data. -/
structure SymbolTable where
  enumerations : List Enumeration
  classes : List Class
  meta_model : MetaModel
  deriving DecidableEq, Repr

/-- The union `Enumeration | Class` over which identifiers are allocated
(`itertools.chain(symbol_table.enumerations, symbol_table.classes)`). -/
inductive OurType where
  | enum (e : Enumeration)
  | cls (c : Class)
  deriving DecidableEq, Repr

/-- The name of an entity of the union. -/
def OurType.name : OurType → String
  | .enum e => e.name
  | .cls c => c.name

/-- Modelled from the spec: the snippet store
(`specific_implementations.SpecificImplementations`), a key-value map of
snippets.  The live generation path never consults it. -/
def SpecificImplementations := List (String × String)

/-- Modelled from the spec: `intermediate.beneath_optional` strips one level of
`Optional` from a type annotation (Optional never wraps Optional, §3). -/
def beneath_optional : TypeAnno → TypeAnno
  | .optional value => value
  | type_anno => type_anno

/-- Title-case a single underscore-separated token: first character upper-case,
the rest lower-case (this normalizes an all-caps token such as "URL" to "Url"). -/
def capitalizeToken (w : List Char) : String :=
  match w with
  | [] => ""
  | c :: cs => String.mk (c.toUpper :: cs.map Char.toLower)

/-- Modelled from the spec: `aas_core_codegen.naming.capitalized_camel_case`
(§4.2): split the identifier on underscores and title-case each token. -/
def capitalized_camel_case (identifier : String) : String :=
  String.join ((identifier.data.splitOn '_').map capitalizeToken)

/-- The function `opcua.naming.data_type_name`: capitalized camel case plus the fixed
suffix `DataType`. -/
def data_type_name (identifier : String) : String :=
  capitalized_camel_case identifier ++ "DataType"

/-- The function `opcua.naming.enum_literal_name`: capitalized camel case,
no suffix. -/
def enum_literal_name (identifier : String) : String :=
  capitalized_camel_case identifier

/-- The table `_PRIMITIVE_MAP` of `opcua/main.py` (lines 18–24).  The source asserts the
map is total over `intermediate.PrimitiveType`; here totality is by
construction. -/
def _PRIMITIVE_MAP : PrimitiveType → String
  | .bool => "Boolean"
  | .int => "Int64"
  | .float => "Double"
  | .str => "String"
  | .bytearray => "ByteString"

/-- An in-memory XML element (`xml.etree.ElementTree.Element`): a tag, an
ordered attribute list, optional text, and ordered children.  Serialization of
the registered default namespace is modelled by an explicit `xmlns` attribute
on the root. -/
inductive Elem where
  | mk (tag : String) (attrs : List (String × String)) (text : Option String)
      (children : List Elem)

/-- The tag of an element. -/
def Elem.tag : Elem → String
  | .mk t _ _ _ => t

/-- The attribute list of an element. -/
def Elem.attrs : Elem → List (String × String)
  | .mk _ a _ _ => a

/-- The text of an element. -/
def Elem.text : Elem → Option String
  | .mk _ _ t _ => t

/-- The children of an element. -/
def Elem.children : Elem → List Elem
  | .mk _ _ _ c => c

/-- Render an attribute list as ` k="v"` pairs. -/
def renderAttrs : List (String × String) → String
  | [] => ""
  | (k, v) :: rest => " " ++ k ++ "=\"" ++ v ++ "\"" ++ renderAttrs rest

mutual

/-- Serialize an element (`ET.tostring`).  Pretty-printing (the `indent`
helper, `minidom.toprettyxml` and the blank-line strip) only reshuffles
whitespace — the spec calls it "a purely cosmetic normalization, not
semantically load-bearing" — and is not modelled; the serialization is a plain
deterministic rendering of the tree. -/
def Elem.render : Elem → String
  | .mk tag attrs text children =>
      "<" ++ tag ++ renderAttrs attrs ++ ">" ++ text.getD ""
        ++ renderChildren children ++ "</" ++ tag ++ ">"

/-- Serialize a list of elements in order. -/
def renderChildren : List Elem → String
  | [] => ""
  | e :: es => e.render ++ renderChildren es

end

/-- The class `IdentifierMachine` (lines 28–38): its whole state is the single counter
`_next_identifier`, initialized to 5000. -/
abbrev IdentifierMachine := Nat

/-- The fresh machine of `IdentifierMachine.__init__`: counter at 5000. -/
def IdentifierMachine.fresh : IdentifierMachine := 5000

/-- The method `IdentifierMachine.next`: return the current identifier and the
incremented machine. -/
def IdentifierMachine.next (machine : IdentifierMachine) :
    Nat × IdentifierMachine :=
  (machine, (machine : Nat) + 1)

/-- The traversal order of the allocation loop and of `_generate_aliases`:
all enumerations in declaration order, then all classes in declaration order
(`itertools.chain(symbol_table.enumerations, symbol_table.classes)`). -/
def ourTypesOf (symbol_table : SymbolTable) : List OurType :=
  symbol_table.enumerations.map OurType.enum
    ++ symbol_table.classes.map OurType.cls

/-- The upfront allocation loop of `_generate` (lines 275–283): one
`identifier_machine.next()` call per entity, inserting into
`our_type_to_identifier` in traversal order.  State-passing form of the
mutable counter. -/
def allocateIdentifiers :
    List OurType → IdentifierMachine → List (OurType × Nat) × IdentifierMachine
  | [], machine => ([], machine)
  | t :: ts, machine =>
      let (i, machine1) := machine.next
      let (rest, machine2) := allocateIdentifiers ts machine1
      ((t, i) :: rest, machine2)

/-- Lookup `our_type_to_identifier[our_type]`.  In every call made by the
generator the key is present (every entity is allocated upfront), so the
`KeyError` case is unreachable; it is defaulted to 0. -/
def ourTypeIdentifier (our_type_to_identifier : List (OurType × Nat))
    (our_type : OurType) : Nat :=
  (our_type_to_identifier.lookup our_type).getD 0

/-- The function `_generate_aliases` (lines 42–70): five fixed primitive aliases, then one
alias per enumeration then per class in traversal order. -/
def _generate_aliases (symbol_table : SymbolTable)
    (our_type_to_identifier : List (OurType × Nat)) : Elem :=
  Elem.mk "Aliases" [] none
    (([("Boolean", 1), ("Int64", 8), ("Double", 11), ("String", 12),
       ("ByteString", 15)].map
        (fun nameI : String × Nat =>
          Elem.mk "Alias" [("Alias", nameI.1)] (some ("i=" ++ toString nameI.2))
            []))
      ++ (ourTypesOf symbol_table).map
        (fun our_type =>
          Elem.mk "Alias" [("Alias", data_type_name our_type.name)]
            (some ("ns=1;i="
              ++ toString (ourTypeIdentifier our_type_to_identifier our_type)))
            []))

/-- The function `_generate_for_enum` (lines 87–131): one `UADataType` node per
enumeration, with one `Field` per literal (each field carrying a `DisplayName`
child). -/
def _generate_for_enum (enum : Enumeration)
    (our_type_to_identifier : List (OurType × Nat)) : Elem :=
  Elem.mk "UADataType"
    [("NodeId", "ns=1;i="
        ++ toString (ourTypeIdentifier our_type_to_identifier (.enum enum))),
     ("BrowseName", "1:" ++ data_type_name enum.name)]
    none
    [Elem.mk "DisplayName" [] (some (data_type_name enum.name)) [],
     Elem.mk "Description" []
       (some ("Enumeration for " ++ data_type_name enum.name)) [],
     Elem.mk "Definition"
       [("Name", data_type_name enum.name), ("IsUnion", "false")] none
       (enum.literals.map (fun literal =>
         Elem.mk "Field"
           [("Name", enum_literal_name literal.name),
            ("Value", literal.value)]
           none
           [Elem.mk "DisplayName" [] (some (enum_literal_name literal.name))
             []]))]

/-- A printable description of a type annotation, standing in for the Python
`repr` in the `NotImplementedError` messages. -/
def TypeAnno.describe : TypeAnno → String
  | .primitive .bool => "Primitive(bool)"
  | .primitive .int => "Primitive(int)"
  | .primitive .float => "Primitive(float)"
  | .primitive .str => "Primitive(str)"
  | .primitive .bytearray => "Primitive(bytearray)"
  | .our our_type => "Our(" ++ our_type.name ++ ")"
  | .list item => "List(" ++ item.describe ++ ")"
  | .optional value => "Optional(" ++ value.describe ++ ")"

/-- The field-type dispatch of `_generate_definition` (lines 180–204): strip
one level of `Optional`, then map a primitive via `_PRIMITIVE_MAP`, an
enumeration or class reference via `data_type_name`, and raise
`NotImplementedError` for any other referent kind or any other annotation
shape (in particular any `List`).  A raised exception is modelled as
`Except.error`. -/
def _field_data_type (type_anno : TypeAnno) :
    Except String String :=
  let type_anno := beneath_optional type_anno
  match type_anno with
  | .primitive a_type => .ok (_PRIMITIVE_MAP a_type)
  | .our our_type =>
      match our_type.kind with
      | .enumeration => .ok (data_type_name our_type.name)
      | .abstractClass => .ok (data_type_name our_type.name)
      | .concreteClass => .ok (data_type_name our_type.name)
      | .constrainedPrimitive =>
          .error ("Unsupported type: " ++ our_type.name)
  | _ => .error ("Unsupported type annotation: " ++ type_anno.describe)

/-- The `for prop in cls.properties` loop of `_generate_definition`
(lines 177–210): one `Field` element per property, in order; the first
unsupported property raises (aborting the whole generation run). -/
def _generate_fields : List Property → Except String (List Elem)
  | [] => .ok []
  | prop :: props => do
      let dataType ← _field_data_type prop.type_anno
      let rest ← _generate_fields props
      .ok (Elem.mk "Field" [("Name", prop.name), ("DataType", dataType)] none []
        :: rest)

/-- The function `_generate_definition` (lines 134–213): the definition for a class.  The
`identifier_machine` argument is threaded as state (the Python code passes the
mutable machine); the returned machine shows whether it was touched. -/
def _generate_definition (cls : Class)
    (our_type_to_identifier : List (OurType × Nat))
    (identifier_machine : IdentifierMachine) :
    Except String (List Elem × IdentifierMachine) := do
  let fields ← _generate_fields cls.properties
  .ok ([Elem.mk "UADataType"
    [("NodeId", "ns=1;i="
        ++ toString (ourTypeIdentifier our_type_to_identifier (.cls cls))),
     ("BrowseName", "1:" ++ data_type_name cls.name)]
    none
    [Elem.mk "DisplayName" [] (some (data_type_name cls.name)) [],
     Elem.mk "Description" []
       (some ("DataType for " ++ data_type_name cls.name)) [],
     Elem.mk "References" [] none
       [Elem.mk "Reference"
         [("ReferenceType", "HasSubtype"), ("IsForward", "false")]
         (some "i=22") []],
     Elem.mk "Definition"
       [("Name", data_type_name cls.name), ("IsUnion", "false")] none
       fields]], identifier_machine)

/-- The `for cls in symbol_table.classes` loop of `_generate`
(lines 309–315): `root.extend(_generate_definition(...))` per class. -/
def _generate_class_elements : List Class → List (OurType × Nat) →
    IdentifierMachine → Except String (List Elem × IdentifierMachine)
  | [], _, identifier_machine => .ok ([], identifier_machine)
  | cls :: clss, our_type_to_identifier, identifier_machine => do
      let res1 ←
        _generate_definition cls our_type_to_identifier identifier_machine
      let res2 ←
        _generate_class_elements clss our_type_to_identifier res1.2
      .ok (res1.1 ++ res2.1, res2.2)

/-- The OPC UA NodeSet XML namespace (line 252). -/
def OPCUA_NS : String := "http://opcfoundation.org/UA/2011/03/UANodeSet.xsd"

/-- The assembled document tree of `_generate` (lines 252–318): the document
shell (root with the registered default namespace, `NamespaceUris`, `Models`
with `Model`/`RequiredModel`), then the aliases, then one node per
enumeration, then the class definitions.  Registering the default namespace plus
namespace-qualified tags serialize as an `xmlns` attribute on the root and
unprefixed tags, which is how the namespace is modelled here.  The header
values are the literal constants of lines 259–270. -/
def _generate_root (symbol_table : SymbolTable) : Except String Elem := do
  let allocation := allocateIdentifiers (ourTypesOf symbol_table)
    IdentifierMachine.fresh
  let our_type_to_identifier := allocation.1
  let class_result ← _generate_class_elements symbol_table.classes
    our_type_to_identifier allocation.2
  .ok (Elem.mk "UANodeSet" [("xmlns", OPCUA_NS)] none
    ([Elem.mk "NamespaceUris" [] none
        [Elem.mk "Uri" [] (some "https://dummy/198/4") []],
      Elem.mk "Models" [] none
        [Elem.mk "Model"
          [("ModelUri", "https://dummy/198/4"), ("Version", "V198.4"),
           ("PublicationDate", "2023-10-10T00:00:00Z")]
          none
          [Elem.mk "RequiredModel"
            [("ModelUri", "http://opcfoundation.org/UA/"),
             ("Version", "1.04.3"),
             ("PublicationDate", "2019-09-09T00:00:00Z")]
            none []]],
      _generate_aliases symbol_table our_type_to_identifier]
      ++ symbol_table.enumerations.map
          (fun enum => _generate_for_enum enum our_type_to_identifier)
      ++ class_result.1))

/-- The function `_generate` (lines 219–330).  The Python function returns a pair
`(Optional[str], Optional[List[Error]])` and may also terminate by an uncaught
exception; the exception outcome is `Except.error`.  The live code path never
constructs an `Error` record and always returns `(text, None)` on normal
termination.  The snippet store is accepted and ignored, as in the live path
(the snippet-based shell is commented out in the source). -/
def _generate (symbol_table : SymbolTable)
    (spec_impls : SpecificImplementations) :
    Except String (Option String × Option (List String)) :=
  match _generate_root symbol_table with
  | .error msg => .error msg
  | .ok root => .ok (some root.render, none)

/-- The shapes `_field_data_type` resolves without raising: after stripping
one `Optional`, a primitive or a reference to an enumeration or class. -/
def supportedShape (type_anno : TypeAnno) : Bool :=
  match beneath_optional type_anno with
  | .primitive _ => true
  | .our our_type =>
      match our_type.kind with
      | .enumeration => true
      | .abstractClass => true
      | .concreteClass => true
      | .constrainedPrimitive => false
  | _ => false

mutual

/-- Collect every `NodeId` attribute value in an element tree, in document
order (a specification-side observer used to state the identifier claims). -/
def Elem.nodeIds : Elem → List String
  | .mk _ attrs _ children =>
      attrs.filterMap (fun kv => if kv.1 = "NodeId" then some kv.2 else none)
        ++ nodeIdsChildren children

/-- Collect the `NodeId` attribute values of a forest, in order. -/
def nodeIdsChildren : List Elem → List String
  | [] => []
  | e :: es => e.nodeIds ++ nodeIdsChildren es

end

/-- The attribute list of the `Model` header element of a generated document
(child 1 of the root is `Models`, its child 0 is `Model`), when present
(a specification-side observer used to state the header claims). -/
def documentModelAttrs (result : Except String Elem) :
    Option (List (String × String)) :=
  match result with
  | .error _ => none
  | .ok root =>
      (root.children.get? 1).bind
        (fun models => (models.children.get? 0).map Elem.attrs)

/-! ## Concrete fixtures (used to instantiate the theorems) -/

/-- The enumeration of the end-to-end scenario of the spec (§8): `Color` with
literals `RED="0"`, `GREEN="1"`. -/
def color_enum : Enumeration :=
  ⟨"color", [⟨"red", "0"⟩, ⟨"green", "1"⟩]⟩

/-- The class of the end-to-end scenario of the spec (§8): `Point` with two `int`
properties. -/
def point_cls : Class :=
  ⟨"point", true, none, [⟨"x", .primitive .int⟩, ⟨"y", .primitive .int⟩]⟩

/-- A model header distinct from the hard-coded constants of the generator. -/
def example_meta_model : MetaModel :=
  ⟨"http://example.com/aas", "2.0.1", "2024-05-05T00:00:00Z"⟩

/-- The end-to-end scenario symbol table: one enumeration, one class. -/
def example_symbol_table : SymbolTable :=
  ⟨[color_enum], [point_cls], example_meta_model⟩

/-- A class whose property references a referent that is neither an
enumeration nor a class (e.g. a constrained primitive). -/
def unsupported_ref_cls : Class :=
  ⟨"registry", true, none,
   [⟨"id_short", .our ⟨.constrainedPrimitive, "non_empty_string"⟩⟩]⟩

/-- A symbol table containing `unsupported_ref_cls`. -/
def symbol_table_with_unsupported_ref : SymbolTable :=
  ⟨[], [unsupported_ref_cls], example_meta_model⟩

/-- A class with a property of type `List(Primitive(int))`. -/
def first_list_cls : Class :=
  ⟨"first", true, none, [⟨"items", .list (.primitive .int)⟩]⟩

/-- A second class with an independently unsupported property. -/
def second_list_cls : Class :=
  ⟨"second", true, none, [⟨"codes", .list (.primitive .str)⟩]⟩

/-- A symbol table with unsupported properties in two different classes. -/
def symbol_table_with_list_props : SymbolTable :=
  ⟨[], [first_list_cls, second_list_cls], example_meta_model⟩

/-- A class with a property typed `Optional(List(Reference(class)))` — the
shape the spec declares supported. -/
def list_of_class_cls : Class :=
  ⟨"environment", true, none,
   [⟨"submodels", .optional (.list (.our ⟨.concreteClass, "submodel"⟩))⟩]⟩

/-- A class that declares an explicit base class and has no properties. -/
def derived_cls : Class :=
  ⟨"entity", true, some "referable", []⟩

/-- A symbol table with no entities at all (only the model header). -/
def empty_symbol_table : SymbolTable :=
  ⟨[], [], example_meta_model⟩

/-! ## Basic lemmas about the embedding -/

theorem allocateIdentifiers_snd_bounds (l : List OurType) (m : Nat) :
    ∀ pair ∈ (allocateIdentifiers l m).1, m ≤ pair.2 ∧ pair.2 < m + l.length := by
  induction l generalizing m with
  | nil => intro pair h; simp [allocateIdentifiers] at h
  | cons t ts ih =>
    intro pair h
    simp only [allocateIdentifiers, IdentifierMachine.next, List.mem_cons] at h
    rcases h with h | h
    · subst h
      simp only [List.length_cons]
      exact ⟨le_refl m, by omega⟩
    · have := ih (m + 1) pair h
      simp only [List.length_cons]
      omega

theorem allocateIdentifiers_pairwise (l : List OurType) (m : Nat) :
    List.Pairwise (fun a b : OurType × Nat => a.2 < b.2)
      (allocateIdentifiers l m).1 := by
  induction l generalizing m with
  | nil => simp [allocateIdentifiers]
  | cons t ts ih =>
    simp only [allocateIdentifiers, IdentifierMachine.next]
    refine List.Pairwise.cons ?_ (ih (m + 1))
    intro pair h
    have hbound := allocateIdentifiers_snd_bounds ts (m + 1) pair h
    show m < pair.2
    omega

theorem allocateIdentifiers_lookup (l : List OurType) (m : Nat) (t : OurType)
    (h : t ∈ l) :
    ∃ k, (allocateIdentifiers l m).1.lookup t = some k ∧
      m ≤ k ∧ k < m + l.length := by
  induction l generalizing m with
  | nil => simp at h
  | cons x xs ih =>
    simp only [allocateIdentifiers, IdentifierMachine.next]
    by_cases hx : t = x
    · subst hx
      refine ⟨m, ?_, le_refl m, ?_⟩
      · simp [List.lookup]
      · simp only [List.length_cons]
        omega
    · rcases List.mem_cons.mp h with h1 | h1
      · exact absurd h1 hx
      · rcases ih (m + 1) h1 with ⟨k, hk, hk1, hk2⟩
        have hbeq : (t == x) = false := beq_eq_false_iff_ne.mpr hx
        refine ⟨k, ?_, by omega, ?_⟩
        · simpa [List.lookup, hbeq] using hk
        · simp only [List.length_cons]; omega

theorem ourTypeIdentifier_allocated (st : SymbolTable) (t : OurType)
    (h : t ∈ ourTypesOf st) :
    5000 ≤ ourTypeIdentifier
        (allocateIdentifiers (ourTypesOf st) IdentifierMachine.fresh).1 t ∧
      ourTypeIdentifier
        (allocateIdentifiers (ourTypesOf st) IdentifierMachine.fresh).1 t
        < 5000 + (ourTypesOf st).length := by
  rcases allocateIdentifiers_lookup (ourTypesOf st) IdentifierMachine.fresh t h
    with ⟨k, hk, hk1, hk2⟩
  unfold ourTypeIdentifier
  rw [hk]
  exact ⟨hk1, hk2⟩

theorem render_ne_empty (e : Elem) : Elem.render e ≠ "" := by
  cases e with
  | mk tag attrs text children =>
    intro h
    have hlen := congrArg String.length h
    have h1 : ("<" : String).length = 1 := rfl
    have h0 : ("" : String).length = 0 := rfl
    simp only [Elem.render, String.length_append, h0] at hlen
    omega

/-! ## Lemmas about field generation and the error path -/

theorem field_data_type_ok_of_supported (ta : TypeAnno)
    (h : supportedShape ta = true) :
    ∃ s, _field_data_type ta = Except.ok s := by
  cases hb : beneath_optional ta with
  | primitive a_type =>
    exact ⟨_PRIMITIVE_MAP a_type, by simp [_field_data_type, hb]⟩
  | our our_type =>
    cases hk : our_type.kind with
    | enumeration =>
      exact ⟨data_type_name our_type.name, by simp [_field_data_type, hb, hk]⟩
    | abstractClass =>
      exact ⟨data_type_name our_type.name, by simp [_field_data_type, hb, hk]⟩
    | concreteClass =>
      exact ⟨data_type_name our_type.name, by simp [_field_data_type, hb, hk]⟩
    | constrainedPrimitive => simp [supportedShape, hb, hk] at h
  | list item => simp [supportedShape, hb] at h
  | optional value => simp [supportedShape, hb] at h

theorem field_data_type_error_of_unsupported (ta : TypeAnno)
    (h : supportedShape ta = false) :
    ∃ msg, _field_data_type ta = Except.error msg := by
  cases hb : beneath_optional ta with
  | primitive a_type => simp [supportedShape, hb] at h
  | our our_type =>
    cases hk : our_type.kind with
    | enumeration => simp [supportedShape, hb, hk] at h
    | abstractClass => simp [supportedShape, hb, hk] at h
    | concreteClass => simp [supportedShape, hb, hk] at h
    | constrainedPrimitive =>
      exact ⟨"Unsupported type: " ++ our_type.name,
        by simp [_field_data_type, hb, hk]⟩
  | list item =>
    exact ⟨"Unsupported type annotation: "
        ++ TypeAnno.describe (.list item),
      by simp [_field_data_type, hb]⟩
  | optional value =>
    exact ⟨"Unsupported type annotation: "
        ++ TypeAnno.describe (.optional value),
      by simp [_field_data_type, hb]⟩

theorem except_bind_ok {ε α β : Type} (a : α) (f : α → Except ε β) :
    (Except.ok a >>= f : Except ε β) = f a := rfl

theorem except_bind_error {ε α β : Type} (e : ε) (f : α → Except ε β) :
    (Except.error e >>= f : Except ε β) = Except.error e := rfl

theorem generate_fields_ok_of_supported (props : List Property)
    (h : ∀ p ∈ props, supportedShape p.type_anno = true) :
    ∃ fs, _generate_fields props = Except.ok fs := by
  induction props with
  | nil => exact ⟨[], rfl⟩
  | cons p ps ih =>
    rcases field_data_type_ok_of_supported p.type_anno
      (h p (List.mem_cons_self p ps)) with ⟨s, hs⟩
    rcases ih (fun q hq => h q (List.mem_cons_of_mem p hq)) with ⟨fs, hfs⟩
    refine ⟨Elem.mk "Field" [("Name", p.name), ("DataType", s)] none [] :: fs,
      ?_⟩
    simp only [_generate_fields]
    rw [hs, hfs, except_bind_ok, except_bind_ok]

theorem generate_fields_error_of_unsupported (props : List Property)
    (h : ∃ p ∈ props, supportedShape p.type_anno = false) :
    ∃ msg, _generate_fields props = Except.error msg := by
  induction props with
  | nil => simp at h
  | cons p ps ih =>
    cases hf : _field_data_type p.type_anno with
    | error msg =>
      refine ⟨msg, ?_⟩
      simp only [_generate_fields]
      rw [hf, except_bind_error]
    | ok s =>
      rcases h with ⟨q, hq, hqbad⟩
      rcases List.mem_cons.mp hq with h1 | h1
      · subst h1
        rcases field_data_type_error_of_unsupported q.type_anno hqbad
          with ⟨msg, hmsg⟩
        rw [hmsg] at hf
        exact absurd hf (by simp)
      · rcases ih ⟨q, h1, hqbad⟩ with ⟨msg, hmsg⟩
        refine ⟨msg, ?_⟩
        simp only [_generate_fields]
        rw [hf, except_bind_ok, hmsg, except_bind_error]

theorem generate_definition_eq (cls : Class)
    (our_type_to_identifier : List (OurType × Nat))
    (identifier_machine : IdentifierMachine) (fs : List Elem)
    (hfs : _generate_fields cls.properties = Except.ok fs) :
    _generate_definition cls our_type_to_identifier identifier_machine =
      Except.ok ([Elem.mk "UADataType"
        [("NodeId", "ns=1;i=" ++ toString
            (ourTypeIdentifier our_type_to_identifier (.cls cls))),
         ("BrowseName", "1:" ++ data_type_name cls.name)]
        none
        [Elem.mk "DisplayName" [] (some (data_type_name cls.name)) [],
         Elem.mk "Description" []
           (some ("DataType for " ++ data_type_name cls.name)) [],
         Elem.mk "References" [] none
           [Elem.mk "Reference"
             [("ReferenceType", "HasSubtype"), ("IsForward", "false")]
             (some "i=22") []],
         Elem.mk "Definition"
           [("Name", data_type_name cls.name), ("IsUnion", "false")] none
           fs]], identifier_machine) := by
  simp only [_generate_definition]
  rw [hfs, except_bind_ok]

theorem generate_definition_error_eq (cls : Class)
    (our_type_to_identifier : List (OurType × Nat))
    (identifier_machine : IdentifierMachine) (msg : String)
    (hmsg : _generate_fields cls.properties = Except.error msg) :
    _generate_definition cls our_type_to_identifier identifier_machine =
      Except.error msg := by
  simp only [_generate_definition]
  rw [hmsg, except_bind_error]

theorem generate_definition_ok_of_supported (cls : Class)
    (our_type_to_identifier : List (OurType × Nat))
    (identifier_machine : IdentifierMachine)
    (h : ∀ p ∈ cls.properties, supportedShape p.type_anno = true) :
    ∃ res, _generate_definition cls our_type_to_identifier identifier_machine
      = Except.ok res := by
  rcases generate_fields_ok_of_supported cls.properties h with ⟨fs, hfs⟩
  exact ⟨_, generate_definition_eq cls our_type_to_identifier
    identifier_machine fs hfs⟩

theorem generate_definition_error_of_unsupported (cls : Class)
    (our_type_to_identifier : List (OurType × Nat))
    (identifier_machine : IdentifierMachine)
    (h : ∃ p ∈ cls.properties, supportedShape p.type_anno = false) :
    ∃ msg, _generate_definition cls our_type_to_identifier identifier_machine
      = Except.error msg := by
  rcases generate_fields_error_of_unsupported cls.properties h with ⟨msg, hmsg⟩
  exact ⟨msg, generate_definition_error_eq cls our_type_to_identifier
    identifier_machine msg hmsg⟩

theorem generate_definition_machine_and_length (cls : Class)
    (our_type_to_identifier : List (OurType × Nat))
    (identifier_machine : IdentifierMachine)
    (res : List Elem × IdentifierMachine)
    (h : _generate_definition cls our_type_to_identifier identifier_machine
      = Except.ok res) :
    res.2 = identifier_machine ∧ res.1.length = 1 := by
  cases hfs : _generate_fields cls.properties with
  | error msg =>
    rw [generate_definition_error_eq cls our_type_to_identifier
      identifier_machine msg hfs] at h
    exact absurd h (by simp)
  | ok fs =>
    rw [generate_definition_eq cls our_type_to_identifier identifier_machine
      fs hfs] at h
    cases h
    exact ⟨rfl, rfl⟩

theorem generate_class_elements_ok_of_supported (clss : List Class)
    (our_type_to_identifier : List (OurType × Nat))
    (identifier_machine : IdentifierMachine)
    (h : ∀ cls ∈ clss, ∀ p ∈ cls.properties,
      supportedShape p.type_anno = true) :
    ∃ res, _generate_class_elements clss our_type_to_identifier
      identifier_machine = Except.ok res := by
  induction clss generalizing identifier_machine with
  | nil => exact ⟨_, rfl⟩
  | cons c cs ih =>
    rcases generate_definition_ok_of_supported c our_type_to_identifier
      identifier_machine (h c (List.mem_cons_self c cs)) with ⟨res1, hres1⟩
    rcases ih res1.2 (fun d hd => h d (List.mem_cons_of_mem c hd))
      with ⟨res2, hres2⟩
    refine ⟨(res1.1 ++ res2.1, res2.2), ?_⟩
    simp only [_generate_class_elements]
    rw [hres1, except_bind_ok, hres2, except_bind_ok]

theorem generate_class_elements_error_of_unsupported (clss : List Class)
    (our_type_to_identifier : List (OurType × Nat))
    (identifier_machine : IdentifierMachine)
    (h : ∃ cls ∈ clss, ∃ p ∈ cls.properties,
      supportedShape p.type_anno = false) :
    ∃ msg, _generate_class_elements clss our_type_to_identifier
      identifier_machine = Except.error msg := by
  induction clss generalizing identifier_machine with
  | nil => simp at h
  | cons c cs ih =>
    cases hc : _generate_definition c our_type_to_identifier identifier_machine
      with
    | error msg =>
      refine ⟨msg, ?_⟩
      simp only [_generate_class_elements]
      rw [hc, except_bind_error]
    | ok res1 =>
      rcases h with ⟨d, hd, hdbad⟩
      rcases List.mem_cons.mp hd with h1 | h1
      · subst h1
        rcases generate_definition_error_of_unsupported d
          our_type_to_identifier identifier_machine hdbad with ⟨msg, hmsg⟩
        rw [hmsg] at hc
        exact absurd hc (by simp)
      · rcases ih res1.2 ⟨d, h1, hdbad⟩ with ⟨msg, hmsg⟩
        refine ⟨msg, ?_⟩
        simp only [_generate_class_elements]
        rw [hc, except_bind_ok, hmsg, except_bind_error]

/-! ## NodeId bookkeeping lemmas -/

theorem nodeIdsChildren_append (as bs : List Elem) :
    nodeIdsChildren (as ++ bs) = nodeIdsChildren as ++ nodeIdsChildren bs := by
  induction as with
  | nil => simp [nodeIdsChildren]
  | cons e es ih =>
    simp only [List.cons_append, nodeIdsChildren, List.append_eq, ih,
      List.append_assoc]

theorem nodeIdsChildren_map_nil {α : Type} (f : α → Elem)
    (h : ∀ a, Elem.nodeIds (f a) = []) (l : List α) :
    nodeIdsChildren (l.map f) = [] := by
  induction l with
  | nil => rfl
  | cons a as ih =>
    simp only [List.map_cons, nodeIdsChildren, h a, ih, List.nil_append]

theorem nodeIdsChildren_map_single {α : Type} (f : α → Elem) (g : α → String)
    (h : ∀ a, Elem.nodeIds (f a) = [g a]) (l : List α) :
    nodeIdsChildren (l.map f) = l.map g := by
  induction l with
  | nil => rfl
  | cons a as ih =>
    simp only [List.map_cons, nodeIdsChildren, h a, ih, List.singleton_append]

theorem nodeIds_generate_aliases (symbol_table : SymbolTable)
    (our_type_to_identifier : List (OurType × Nat)) :
    Elem.nodeIds (_generate_aliases symbol_table our_type_to_identifier)
      = [] := by
  simp only [_generate_aliases, Elem.nodeIds, List.filterMap_nil,
    nodeIdsChildren_append, List.nil_append]
  rw [nodeIdsChildren_map_nil
      (fun nameI : String × Nat =>
        Elem.mk "Alias" [("Alias", nameI.1)] (some ("i=" ++ toString nameI.2))
          [])
      (fun nameI => rfl),
    nodeIdsChildren_map_nil
      (fun our_type : OurType =>
        Elem.mk "Alias" [("Alias", data_type_name our_type.name)]
          (some ("ns=1;i="
            ++ toString (ourTypeIdentifier our_type_to_identifier our_type)))
          [])
      (fun our_type => rfl)]
  rfl

theorem nodeIds_generate_for_enum (enum : Enumeration)
    (our_type_to_identifier : List (OurType × Nat)) :
    Elem.nodeIds (_generate_for_enum enum our_type_to_identifier) =
      ["ns=1;i=" ++ toString
        (ourTypeIdentifier our_type_to_identifier (.enum enum))] := by
  simp only [_generate_for_enum, Elem.nodeIds, nodeIdsChildren]
  rw [nodeIdsChildren_map_nil
    (fun literal : EnumerationLiteral =>
      Elem.mk "Field"
        [("Name", enum_literal_name literal.name), ("Value", literal.value)]
        none
        [Elem.mk "DisplayName" [] (some (enum_literal_name literal.name)) []])
    (fun literal => rfl)]
  rfl

theorem generate_fields_nodeIds (props : List Property) (fs : List Elem)
    (h : _generate_fields props = Except.ok fs) :
    nodeIdsChildren fs = [] := by
  induction props generalizing fs with
  | nil =>
    cases h
    rfl
  | cons p ps ih =>
    cases hf : _field_data_type p.type_anno with
    | error msg =>
      rw [_generate_fields, hf, except_bind_error] at h
      exact absurd h (by simp)
    | ok s =>
      cases hrest : _generate_fields ps with
      | error msg =>
        rw [_generate_fields, hf, except_bind_ok, hrest, except_bind_error]
          at h
        exact absurd h (by simp)
      | ok rest =>
        rw [_generate_fields, hf, except_bind_ok, hrest, except_bind_ok] at h
        cases h
        simp only [nodeIdsChildren, ih rest hrest]
        rfl

theorem generate_definition_nodeIds (cls : Class)
    (our_type_to_identifier : List (OurType × Nat))
    (identifier_machine : IdentifierMachine)
    (res : List Elem × IdentifierMachine)
    (h : _generate_definition cls our_type_to_identifier identifier_machine
      = Except.ok res) :
    nodeIdsChildren res.1 =
      ["ns=1;i=" ++ toString
        (ourTypeIdentifier our_type_to_identifier (.cls cls))] := by
  cases hfs : _generate_fields cls.properties with
  | error msg =>
    rw [generate_definition_error_eq cls our_type_to_identifier
      identifier_machine msg hfs] at h
    exact absurd h (by simp)
  | ok fs =>
    rw [generate_definition_eq cls our_type_to_identifier identifier_machine
      fs hfs] at h
    cases h
    simp only [nodeIdsChildren, Elem.nodeIds,
      generate_fields_nodeIds cls.properties fs hfs]
    rfl

theorem generate_class_elements_machine_and_nodeIds (clss : List Class)
    (our_type_to_identifier : List (OurType × Nat))
    (identifier_machine : IdentifierMachine)
    (res : List Elem × IdentifierMachine)
    (h : _generate_class_elements clss our_type_to_identifier
      identifier_machine = Except.ok res) :
    res.2 = identifier_machine ∧
      nodeIdsChildren res.1 = clss.map (fun cls =>
        "ns=1;i=" ++ toString
          (ourTypeIdentifier our_type_to_identifier (.cls cls))) := by
  induction clss generalizing identifier_machine res with
  | nil =>
    cases h
    exact ⟨rfl, rfl⟩
  | cons c cs ih =>
    cases hc : _generate_definition c our_type_to_identifier
      identifier_machine with
    | error msg =>
      rw [_generate_class_elements, hc, except_bind_error] at h
      exact absurd h (by simp)
    | ok res1 =>
      cases hrest : _generate_class_elements cs our_type_to_identifier res1.2
        with
      | error msg =>
        rw [_generate_class_elements, hc, except_bind_ok, hrest,
          except_bind_error] at h
        exact absurd h (by simp)
      | ok res2 =>
        rw [_generate_class_elements, hc, except_bind_ok, hrest,
          except_bind_ok] at h
        cases h
        have h1 := generate_definition_machine_and_length c
          our_type_to_identifier identifier_machine res1 hc
        have h2 := ih res1.2 res2 hrest
        refine ⟨h2.1.trans h1.1, ?_⟩
        simp only [nodeIdsChildren_append, List.map_cons]
        rw [generate_definition_nodeIds c our_type_to_identifier
          identifier_machine res1 hc, h2.2]
        rfl

theorem generate_root_eq (symbol_table : SymbolTable)
    (class_elements : List Elem) (machine2 : IdentifierMachine)
    (h : _generate_class_elements symbol_table.classes
      (allocateIdentifiers (ourTypesOf symbol_table)
        IdentifierMachine.fresh).1
      (allocateIdentifiers (ourTypesOf symbol_table)
        IdentifierMachine.fresh).2
      = Except.ok (class_elements, machine2)) :
    _generate_root symbol_table =
      Except.ok (Elem.mk "UANodeSet" [("xmlns", OPCUA_NS)] none
        ([Elem.mk "NamespaceUris" [] none
            [Elem.mk "Uri" [] (some "https://dummy/198/4") []],
          Elem.mk "Models" [] none
            [Elem.mk "Model"
              [("ModelUri", "https://dummy/198/4"), ("Version", "V198.4"),
               ("PublicationDate", "2023-10-10T00:00:00Z")]
              none
              [Elem.mk "RequiredModel"
                [("ModelUri", "http://opcfoundation.org/UA/"),
                 ("Version", "1.04.3"),
                 ("PublicationDate", "2019-09-09T00:00:00Z")]
                none []]],
          _generate_aliases symbol_table
            (allocateIdentifiers (ourTypesOf symbol_table)
              IdentifierMachine.fresh).1]
          ++ symbol_table.enumerations.map
              (fun enum => _generate_for_enum enum
                (allocateIdentifiers (ourTypesOf symbol_table)
                  IdentifierMachine.fresh).1)
          ++ class_elements)) := by
  simp only [_generate_root]
  rw [h, except_bind_ok]

theorem generate_root_error_eq (symbol_table : SymbolTable) (msg : String)
    (h : _generate_class_elements symbol_table.classes
      (allocateIdentifiers (ourTypesOf symbol_table)
        IdentifierMachine.fresh).1
      (allocateIdentifiers (ourTypesOf symbol_table)
        IdentifierMachine.fresh).2
      = Except.error msg) :
    _generate_root symbol_table = Except.error msg := by
  simp only [_generate_root]
  rw [h, except_bind_error]

theorem generate_ok_of_root_ok (symbol_table : SymbolTable)
    (spec_impls : SpecificImplementations) (root : Elem)
    (h : _generate_root symbol_table = Except.ok root) :
    _generate symbol_table spec_impls
      = Except.ok (some root.render, none) := by
  simp only [_generate, h]

theorem generate_error_of_root_error (symbol_table : SymbolTable)
    (spec_impls : SpecificImplementations) (msg : String)
    (h : _generate_root symbol_table = Except.error msg) :
    _generate symbol_table spec_impls = Except.error msg := by
  simp only [_generate, h]

theorem generate_root_cases (symbol_table : SymbolTable) :
    (∃ r, _generate_root symbol_table = Except.ok r) ∨
      (∃ msg, _generate_root symbol_table = Except.error msg) := by
  cases hce : _generate_class_elements symbol_table.classes
    (allocateIdentifiers (ourTypesOf symbol_table) IdentifierMachine.fresh).1
    (allocateIdentifiers (ourTypesOf symbol_table) IdentifierMachine.fresh).2
    with
  | error msg =>
    right
    refine ⟨msg, ?_⟩
    simp only [_generate_root]
    rw [hce, except_bind_error]
  | ok res =>
    left
    exact ⟨_, generate_root_eq symbol_table res.1 res.2 hce⟩

/-! ## Claims -/

/-- Claim C1 (corrected).  As stated ("for every symbol table and snippet
store, `_generate` returns either non-empty text with no errors, or a
non-empty error list with no text — never a third outcome") the claim is
false: `_generate` can terminate by an uncaught `NotImplementedError`.  This
counterexample exhibits a symbol table on which `_generate` terminates
exceptionally (a third outcome), returning neither text nor an error list. -/
theorem claim_C1_counterexample :
    _generate symbol_table_with_unsupported_ref [] =
      Except.error "Unsupported type: non_empty_string" := rfl

/-- Claim C1 (corrected), amended statement: whenever every class property
has a supported shape, `_generate` returns non-empty text and no error list;
moreover every normal return of `_generate` carries non-empty text and no
error list (an error list is never returned) — but on unsupported shapes
`_generate` terminates exceptionally instead. -/
theorem claim_C1_outcomes (symbol_table : SymbolTable)
    (spec_impls : SpecificImplementations) :
    ((∀ cls ∈ symbol_table.classes, ∀ p ∈ cls.properties,
        supportedShape p.type_anno = true) →
      ∃ text, _generate symbol_table spec_impls
          = Except.ok (some text, none) ∧ text ≠ "") ∧
    (∀ outcome, _generate symbol_table spec_impls = Except.ok outcome →
      outcome.2 = none ∧ ∃ text, outcome.1 = some text ∧ text ≠ "") := by
  constructor
  · intro h
    rcases generate_class_elements_ok_of_supported symbol_table.classes
      (allocateIdentifiers (ourTypesOf symbol_table) IdentifierMachine.fresh).1
      (allocateIdentifiers (ourTypesOf symbol_table) IdentifierMachine.fresh).2
      h with ⟨res, hce⟩
    exact ⟨_, generate_ok_of_root_ok symbol_table spec_impls _
      (generate_root_eq symbol_table res.1 res.2 hce), render_ne_empty _⟩
  · intro outcome h
    cases hr : _generate_root symbol_table with
    | error msg =>
      rw [generate_error_of_root_error symbol_table spec_impls msg hr] at h
      exact absurd h (by simp)
    | ok r =>
      rw [generate_ok_of_root_ok symbol_table spec_impls r hr] at h
      cases h
      exact ⟨rfl, r.render, rfl, render_ne_empty r⟩

/-- Claim C1 witness: on the symbol table of the end-to-end scenario, whose shapes
are all supported, generation returns non-empty text and no errors. -/
theorem claim_C1_witness :
    ∃ text, _generate example_symbol_table []
        = Except.ok (some text, none) ∧ text ≠ "" :=
  (claim_C1_outcomes example_symbol_table []).1 (by decide)

/-- Claim C2 (confirmed): the upfront allocation pass assigns pairwise
distinct identifiers, all ≥ 5000, and hence disjoint from the reserved
standard-namespace identifiers 1, 8, 11, 12, 15 of the fixed primitive
aliases. -/
theorem claim_C2_identifier_allocation (symbol_table : SymbolTable) :
    List.Pairwise (fun a b : OurType × Nat => a.2 ≠ b.2)
      (allocateIdentifiers (ourTypesOf symbol_table)
        IdentifierMachine.fresh).1 ∧
    (∀ pair ∈ (allocateIdentifiers (ourTypesOf symbol_table)
        IdentifierMachine.fresh).1, 5000 ≤ pair.2) ∧
    (∀ pair ∈ (allocateIdentifiers (ourTypesOf symbol_table)
        IdentifierMachine.fresh).1,
      pair.2 ∉ ([1, 8, 11, 12, 15] : List Nat)) := by
  refine ⟨(allocateIdentifiers_pairwise (ourTypesOf symbol_table)
      IdentifierMachine.fresh).imp (fun hab => Nat.ne_of_lt hab), ?_, ?_⟩
  · intro pair hp
    exact (allocateIdentifiers_snd_bounds (ourTypesOf symbol_table)
      IdentifierMachine.fresh pair hp).1
  · intro pair hp hmem
    have h5 : 5000 ≤ pair.2 :=
      (allocateIdentifiers_snd_bounds (ourTypesOf symbol_table)
        IdentifierMachine.fresh pair hp).1
    simp only [List.mem_cons, List.not_mem_nil, or_false] at hmem
    rcases hmem with h | h | h | h | h <;> omega

/-- Claim C2 witness: in the end-to-end scenario the enumeration is allocated
identifier 5000, which is ≥ 5000 and not a reserved identifier. -/
theorem claim_C2_witness :
    5000 ≤ ((OurType.enum color_enum, (5000 : Nat))).2 ∧
      ((OurType.enum color_enum, (5000 : Nat))).2
        ∉ ([1, 8, 11, 12, 15] : List Nat) :=
  ⟨(claim_C2_identifier_allocation example_symbol_table).2.1 _ (by decide),
   (claim_C2_identifier_allocation example_symbol_table).2.2 _ (by decide)⟩

/-- Claim C3 (corrected).  As stated ("an unsupported-shape property yields
an error record with the qualified name of the property in the returned error
list, and independent errors are all collected") the claim is false: on a
symbol table with unsupported properties in two different classes,
`_generate` terminates with a single exception for the first offending
property; no error list is returned and the message does not carry the
qualified name of the property. -/
theorem claim_C3_counterexample :
    _generate symbol_table_with_list_props [] =
      Except.error "Unsupported type annotation: List(Primitive(int))" := rfl

/-- Claim C3 (corrected), amended statement: a symbol table containing any
class with an unsupported-shape property makes `_generate` terminate
exceptionally (first offence aborts the run; no error records are
collected). -/
theorem claim_C3_unsupported_aborts (symbol_table : SymbolTable)
    (spec_impls : SpecificImplementations)
    (h : ∃ cls ∈ symbol_table.classes, ∃ p ∈ cls.properties,
      supportedShape p.type_anno = false) :
    ∃ msg, _generate symbol_table spec_impls = Except.error msg := by
  rcases generate_class_elements_error_of_unsupported symbol_table.classes
    (allocateIdentifiers (ourTypesOf symbol_table) IdentifierMachine.fresh).1
    (allocateIdentifiers (ourTypesOf symbol_table) IdentifierMachine.fresh).2
    h with ⟨msg, hmsg⟩
  exact ⟨msg, generate_error_of_root_error symbol_table spec_impls msg
    (generate_root_error_eq symbol_table msg hmsg)⟩

/-- Claim C3 witness: the two-bad-classes symbol table terminates
exceptionally. -/
theorem claim_C3_witness :
    ∃ msg, _generate symbol_table_with_list_props [] = Except.error msg :=
  claim_C3_unsupported_aborts symbol_table_with_list_props [] (by decide)

/-- Claim C4 (corrected).  As stated ("a property whose type, after
stripping one `Optional`, is `List(Reference(class))` resolves successfully
and a Field is emitted") the claim is false: `_generate_definition` raises
for every `List` item shape, including list-of-class. -/
theorem claim_C4_counterexample :
    _generate_definition list_of_class_cls [] 5000 =
      Except.error "Unsupported type annotation: List(Our(submodel))" := rfl

/-- Claim C4 (corrected), amended statement: a class with a property whose
type annotation, after stripping one `Optional`, is any `List` — even
list-of-class — makes `_generate_definition` terminate exceptionally; no
Field is emitted for it. -/
theorem claim_C4_list_rejected (cls : Class)
    (our_type_to_identifier : List (OurType × Nat))
    (identifier_machine : IdentifierMachine)
    (h : ∃ p ∈ cls.properties, ∃ item,
      beneath_optional p.type_anno = TypeAnno.list item) :
    ∃ msg, _generate_definition cls our_type_to_identifier identifier_machine
      = Except.error msg := by
  apply generate_definition_error_of_unsupported
  rcases h with ⟨p, hp, item, hitem⟩
  exact ⟨p, hp, by simp [supportedShape, hitem]⟩

/-- Claim C4 witness: the optional-list-of-class property terminates
exceptionally. -/
theorem claim_C4_witness :
    ∃ msg, _generate_definition list_of_class_cls [] 5000
      = Except.error msg :=
  claim_C4_list_rejected list_of_class_cls [] 5000
    ⟨⟨"submodels", .optional (.list (.our ⟨.concreteClass, "submodel"⟩))⟩,
     by decide, .our ⟨.concreteClass, "submodel"⟩, rfl⟩

/-- Claim C5 (confirmed): the Aliases element holds, in order, exactly the
five built-in primitive aliases Boolean=1, Int64=8, Double=11, String=12,
ByteString=15, then one alias per enumeration then per class in declaration
order, named `data_type_name(entity.name)` with text `ns=1;i=<id>`; the
alias count is `|enumerations| + |classes| + 5`. -/
theorem claim_C5_alias_table (symbol_table : SymbolTable)
    (our_type_to_identifier : List (OurType × Nat)) :
    (_generate_aliases symbol_table our_type_to_identifier).children =
      ([Elem.mk "Alias" [("Alias", "Boolean")] (some "i=1") [],
        Elem.mk "Alias" [("Alias", "Int64")] (some "i=8") [],
        Elem.mk "Alias" [("Alias", "Double")] (some "i=11") [],
        Elem.mk "Alias" [("Alias", "String")] (some "i=12") [],
        Elem.mk "Alias" [("Alias", "ByteString")] (some "i=15") []]
        ++ (ourTypesOf symbol_table).map (fun our_type =>
          Elem.mk "Alias" [("Alias", data_type_name our_type.name)]
            (some ("ns=1;i=" ++ toString
              (ourTypeIdentifier our_type_to_identifier our_type)))
            [])) ∧
    (_generate_aliases symbol_table our_type_to_identifier).children.length =
      symbol_table.enumerations.length + symbol_table.classes.length + 5 := by
  constructor
  · rfl
  · simp only [_generate_aliases, Elem.children, List.length_append,
      List.length_map, ourTypesOf, List.length_cons, List.length_nil]
    omega

/-- Claim C6 (confirmed): generation is deterministic — for a fixed symbol
table, two runs produce the same result pair (text, errors) and the same
identifier assignment; moreover the output does not depend on the snippet
store at all. -/
theorem claim_C6_determinism (symbol_table : SymbolTable)
    (spec_impls other_spec_impls : SpecificImplementations) :
    _generate symbol_table spec_impls = _generate symbol_table spec_impls ∧
    (allocateIdentifiers (ourTypesOf symbol_table) IdentifierMachine.fresh).1
      = (allocateIdentifiers (ourTypesOf symbol_table)
          IdentifierMachine.fresh).1 ∧
    _generate symbol_table spec_impls
      = _generate symbol_table other_spec_impls :=
  ⟨rfl, rfl, rfl⟩

/-- Claim C7 (confirmed): the primitive mapping is total over the five
primitive kinds with exactly the documented names, and every property whose
annotation strips to a bare primitive resolves to exactly that name. -/
theorem claim_C7_primitive_mapping :
    (_PRIMITIVE_MAP PrimitiveType.bool = "Boolean" ∧
     _PRIMITIVE_MAP PrimitiveType.int = "Int64" ∧
     _PRIMITIVE_MAP PrimitiveType.float = "Double" ∧
     _PRIMITIVE_MAP PrimitiveType.str = "String" ∧
     _PRIMITIVE_MAP PrimitiveType.bytearray = "ByteString") ∧
    (∀ (type_anno : TypeAnno) (a_type : PrimitiveType),
      beneath_optional type_anno = TypeAnno.primitive a_type →
      _field_data_type type_anno
        = Except.ok (_PRIMITIVE_MAP a_type)) := by
  refine ⟨⟨rfl, rfl, rfl, rfl, rfl⟩, ?_⟩
  intro type_anno a_type h
  simp [_field_data_type, h]

/-- Claim C7 witness: an optional `int` property resolves to `Int64`. -/
theorem claim_C7_witness :
    beneath_optional (.optional (.primitive .int))
      = TypeAnno.primitive .int ∧
    _field_data_type (.optional (.primitive .int)) = Except.ok "Int64" :=
  ⟨rfl, claim_C7_primitive_mapping.2 (.optional (.primitive .int)) .int rfl⟩

/-- Claim C8 (confirmed): every successfully generated class definition is a
single `UADataType` node whose third child is a `References` element holding
exactly one `HasSubtype` reference with `IsForward="false"` targeting the
universal root data type `i=22` — regardless of whether the class declares an
explicit base class. -/
theorem claim_C8_base_reference (cls : Class)
    (our_type_to_identifier : List (OurType × Nat))
    (identifier_machine : IdentifierMachine)
    (res : List Elem × IdentifierMachine)
    (h : _generate_definition cls our_type_to_identifier identifier_machine
      = Except.ok res) :
    res.1.map (fun node => node.children.get? 2) =
      [some (Elem.mk "References" [] none
        [Elem.mk "Reference"
          [("ReferenceType", "HasSubtype"), ("IsForward", "false")]
          (some "i=22") []])] := by
  cases hfs : _generate_fields cls.properties with
  | error msg =>
    rw [generate_definition_error_eq cls our_type_to_identifier
      identifier_machine msg hfs] at h
    exact absurd h (by simp)
  | ok fs =>
    rw [generate_definition_eq cls our_type_to_identifier identifier_machine
      fs hfs] at h
    cases h
    rfl

/-- Claim C8 witness: a class that declares an explicit base class still gets
the single non-forward `HasSubtype` reference to `i=22`. -/
theorem claim_C8_witness :
    ([Elem.mk "UADataType"
        [("NodeId", "ns=1;i=0"), ("BrowseName", "1:EntityDataType")] none
        [Elem.mk "DisplayName" [] (some "EntityDataType") [],
         Elem.mk "Description" [] (some "DataType for EntityDataType") [],
         Elem.mk "References" [] none
           [Elem.mk "Reference"
             [("ReferenceType", "HasSubtype"), ("IsForward", "false")]
             (some "i=22") []],
         Elem.mk "Definition" [("Name", "EntityDataType"), ("IsUnion", "false")]
           none []]].map (fun node => node.children.get? 2)) =
      [some (Elem.mk "References" [] none
        [Elem.mk "Reference"
          [("ReferenceType", "HasSubtype"), ("IsForward", "false")]
          (some "i=22") []])] :=
  claim_C8_base_reference derived_cls [] 5000
    ([Elem.mk "UADataType"
        [("NodeId", "ns=1;i=0"), ("BrowseName", "1:EntityDataType")] none
        [Elem.mk "DisplayName" [] (some "EntityDataType") [],
         Elem.mk "Description" [] (some "DataType for EntityDataType") [],
         Elem.mk "References" [] none
           [Elem.mk "Reference"
             [("ReferenceType", "HasSubtype"), ("IsForward", "false")]
             (some "i=22") []],
         Elem.mk "Definition" [("Name", "EntityDataType"), ("IsUnion", "false")]
           none []]], 5000) rfl

/-- Claim C9 (corrected).  As stated, the header should record "values taken
from the input model, not constants independent of it"; in fact the emitted
`Model` header carries the fixed constants `https://dummy/198/4`, `V198.4`,
`2023-10-10T00:00:00Z`, which differ from the URI, version and
publication date of this input model. -/
theorem claim_C9_counterexample :
    documentModelAttrs (_generate_root example_symbol_table) =
      some [("ModelUri", "https://dummy/198/4"), ("Version", "V198.4"),
        ("PublicationDate", "2023-10-10T00:00:00Z")] ∧
    example_symbol_table.meta_model.uri = "http://example.com/aas" ∧
    example_symbol_table.meta_model.version = "2.0.1" ∧
    example_symbol_table.meta_model.publication_date
      = "2024-05-05T00:00:00Z" ∧
    ¬ ("https://dummy/198/4" = example_symbol_table.meta_model.uri) :=
  ⟨rfl, rfl, rfl, rfl, by decide⟩

/-- Claim C9 (corrected), amended statement: the document shell declares the
OPC UA namespace on the root and emits the `NamespaceUris` block and the
`Models`/`Model`/`RequiredModel` header, but all header values are fixed
placeholder constants independent of the input model; the `RequiredModel`
correctly references the base OPC UA information model with its version and
date. -/
theorem claim_C9_document_shell (symbol_table : SymbolTable) (root : Elem)
    (h : _generate_root symbol_table = Except.ok root) :
    root.tag = "UANodeSet" ∧
    root.attrs = [("xmlns", OPCUA_NS)] ∧
    root.children.get? 0 = some (Elem.mk "NamespaceUris" [] none
      [Elem.mk "Uri" [] (some "https://dummy/198/4") []]) ∧
    root.children.get? 1 = some (Elem.mk "Models" [] none
      [Elem.mk "Model"
        [("ModelUri", "https://dummy/198/4"), ("Version", "V198.4"),
         ("PublicationDate", "2023-10-10T00:00:00Z")] none
        [Elem.mk "RequiredModel"
          [("ModelUri", "http://opcfoundation.org/UA/"), ("Version", "1.04.3"),
           ("PublicationDate", "2019-09-09T00:00:00Z")] none []]]) := by
  cases hce : _generate_class_elements symbol_table.classes
    (allocateIdentifiers (ourTypesOf symbol_table) IdentifierMachine.fresh).1
    (allocateIdentifiers (ourTypesOf symbol_table) IdentifierMachine.fresh).2
    with
  | error msg =>
    rw [generate_root_error_eq symbol_table msg hce] at h
    exact absurd h (by simp)
  | ok res =>
    rw [generate_root_eq symbol_table res.1 res.2 hce] at h
    cases h
    exact ⟨rfl, rfl, rfl, rfl⟩

/-- Claim C9 witness: on a symbol table with no entities, the shell holds the
constant header. -/
theorem claim_C9_witness :
    (Elem.mk "UANodeSet" [("xmlns", OPCUA_NS)] none
      [Elem.mk "NamespaceUris" [] none
        [Elem.mk "Uri" [] (some "https://dummy/198/4") []],
       Elem.mk "Models" [] none
        [Elem.mk "Model"
          [("ModelUri", "https://dummy/198/4"), ("Version", "V198.4"),
           ("PublicationDate", "2023-10-10T00:00:00Z")] none
          [Elem.mk "RequiredModel"
            [("ModelUri", "http://opcfoundation.org/UA/"),
             ("Version", "1.04.3"),
             ("PublicationDate", "2019-09-09T00:00:00Z")] none []]],
       Elem.mk "Aliases" [] none
        [Elem.mk "Alias" [("Alias", "Boolean")] (some "i=1") [],
         Elem.mk "Alias" [("Alias", "Int64")] (some "i=8") [],
         Elem.mk "Alias" [("Alias", "Double")] (some "i=11") [],
         Elem.mk "Alias" [("Alias", "String")] (some "i=12") [],
         Elem.mk "Alias" [("Alias", "ByteString")] (some "i=15") []]]).tag
        = "UANodeSet" ∧
    (Elem.mk "UANodeSet" [("xmlns", OPCUA_NS)] none
      [Elem.mk "NamespaceUris" [] none
        [Elem.mk "Uri" [] (some "https://dummy/198/4") []],
       Elem.mk "Models" [] none
        [Elem.mk "Model"
          [("ModelUri", "https://dummy/198/4"), ("Version", "V198.4"),
           ("PublicationDate", "2023-10-10T00:00:00Z")] none
          [Elem.mk "RequiredModel"
            [("ModelUri", "http://opcfoundation.org/UA/"),
             ("Version", "1.04.3"),
             ("PublicationDate", "2019-09-09T00:00:00Z")] none []]],
       Elem.mk "Aliases" [] none
        [Elem.mk "Alias" [("Alias", "Boolean")] (some "i=1") [],
         Elem.mk "Alias" [("Alias", "Int64")] (some "i=8") [],
         Elem.mk "Alias" [("Alias", "Double")] (some "i=11") [],
         Elem.mk "Alias" [("Alias", "String")] (some "i=12") [],
         Elem.mk "Alias" [("Alias", "ByteString")] (some "i=15") []]]).attrs
        = [("xmlns", OPCUA_NS)] ∧
    (Elem.mk "UANodeSet" [("xmlns", OPCUA_NS)] none
      [Elem.mk "NamespaceUris" [] none
        [Elem.mk "Uri" [] (some "https://dummy/198/4") []],
       Elem.mk "Models" [] none
        [Elem.mk "Model"
          [("ModelUri", "https://dummy/198/4"), ("Version", "V198.4"),
           ("PublicationDate", "2023-10-10T00:00:00Z")] none
          [Elem.mk "RequiredModel"
            [("ModelUri", "http://opcfoundation.org/UA/"),
             ("Version", "1.04.3"),
             ("PublicationDate", "2019-09-09T00:00:00Z")] none []]],
       Elem.mk "Aliases" [] none
        [Elem.mk "Alias" [("Alias", "Boolean")] (some "i=1") [],
         Elem.mk "Alias" [("Alias", "Int64")] (some "i=8") [],
         Elem.mk "Alias" [("Alias", "Double")] (some "i=11") [],
         Elem.mk "Alias" [("Alias", "String")] (some "i=12") [],
         Elem.mk "Alias" [("Alias", "ByteString")] (some "i=15") []]]
      ).children.get? 0 = some (Elem.mk "NamespaceUris" [] none
        [Elem.mk "Uri" [] (some "https://dummy/198/4") []]) ∧
    (Elem.mk "UANodeSet" [("xmlns", OPCUA_NS)] none
      [Elem.mk "NamespaceUris" [] none
        [Elem.mk "Uri" [] (some "https://dummy/198/4") []],
       Elem.mk "Models" [] none
        [Elem.mk "Model"
          [("ModelUri", "https://dummy/198/4"), ("Version", "V198.4"),
           ("PublicationDate", "2023-10-10T00:00:00Z")] none
          [Elem.mk "RequiredModel"
            [("ModelUri", "http://opcfoundation.org/UA/"),
             ("Version", "1.04.3"),
             ("PublicationDate", "2019-09-09T00:00:00Z")] none []]],
       Elem.mk "Aliases" [] none
        [Elem.mk "Alias" [("Alias", "Boolean")] (some "i=1") [],
         Elem.mk "Alias" [("Alias", "Int64")] (some "i=8") [],
         Elem.mk "Alias" [("Alias", "Double")] (some "i=11") [],
         Elem.mk "Alias" [("Alias", "String")] (some "i=12") [],
         Elem.mk "Alias" [("Alias", "ByteString")] (some "i=15") []]]
      ).children.get? 1 = some (Elem.mk "Models" [] none
        [Elem.mk "Model"
          [("ModelUri", "https://dummy/198/4"), ("Version", "V198.4"),
           ("PublicationDate", "2023-10-10T00:00:00Z")] none
          [Elem.mk "RequiredModel"
            [("ModelUri", "http://opcfoundation.org/UA/"),
             ("Version", "1.04.3"),
             ("PublicationDate", "2019-09-09T00:00:00Z")] none []]]) :=
  claim_C9_document_shell empty_symbol_table _ rfl

/-- Claim C10 (confirmed): class emission allocates no identifiers —
`_generate_definition` returns its identifier machine unchanged and exactly
one element — and every `NodeId` attribute anywhere in the emitted document is
`ns=1;i=k` with `k` drawn from the single upfront allocation pass, i.e. from
the consecutive range starting at 5000 of length
`|enumerations| + |classes|`. -/
theorem claim_C10_identifier_provenance :
    (∀ (cls : Class) (our_type_to_identifier : List (OurType × Nat))
        (identifier_machine : IdentifierMachine)
        (res : List Elem × IdentifierMachine),
      _generate_definition cls our_type_to_identifier identifier_machine
          = Except.ok res →
        res.2 = identifier_machine ∧ res.1.length = 1) ∧
    (∀ (symbol_table : SymbolTable) (root : Elem),
      _generate_root symbol_table = Except.ok root →
        ∀ s ∈ Elem.nodeIds root, ∃ k, s = "ns=1;i=" ++ toString k ∧
          5000 ≤ k ∧ k < 5000 + (symbol_table.enumerations.length
            + symbol_table.classes.length)) := by
  constructor
  · exact generate_definition_machine_and_length
  · intro symbol_table root h s hs
    cases hce : _generate_class_elements symbol_table.classes
      (allocateIdentifiers (ourTypesOf symbol_table) IdentifierMachine.fresh).1
      (allocateIdentifiers (ourTypesOf symbol_table) IdentifierMachine.fresh).2
      with
    | error msg =>
      rw [generate_root_error_eq symbol_table msg hce] at h
      exact absurd h (by simp)
    | ok res =>
      rw [generate_root_eq symbol_table res.1 res.2 hce] at h
      cases h
      have hcls := generate_class_elements_machine_and_nodeIds
        symbol_table.classes
        (allocateIdentifiers (ourTypesOf symbol_table)
          IdentifierMachine.fresh).1
        (allocateIdentifiers (ourTypesOf symbol_table)
          IdentifierMachine.fresh).2
        res hce
      have h0 : ∀ L, Elem.nodeIds
          (Elem.mk "UANodeSet" [("xmlns", OPCUA_NS)] none L)
          = nodeIdsChildren L := fun L => rfl
      rw [h0, nodeIdsChildren_append, nodeIdsChildren_append] at hs
      have hshell : nodeIdsChildren
          [Elem.mk "NamespaceUris" [] none
            [Elem.mk "Uri" [] (some "https://dummy/198/4") []],
           Elem.mk "Models" [] none
            [Elem.mk "Model"
              [("ModelUri", "https://dummy/198/4"), ("Version", "V198.4"),
               ("PublicationDate", "2023-10-10T00:00:00Z")] none
              [Elem.mk "RequiredModel"
                [("ModelUri", "http://opcfoundation.org/UA/"),
                 ("Version", "1.04.3"),
                 ("PublicationDate", "2019-09-09T00:00:00Z")] none []]],
           _generate_aliases symbol_table
             (allocateIdentifiers (ourTypesOf symbol_table)
               IdentifierMachine.fresh).1] = [] := by
        simp only [nodeIdsChildren, nodeIds_generate_aliases]
        rfl
      rw [hshell, List.nil_append,
        nodeIdsChildren_map_single
          (fun enum => _generate_for_enum enum
            (allocateIdentifiers (ourTypesOf symbol_table)
              IdentifierMachine.fresh).1)
          (fun enum => "ns=1;i=" ++ toString
            (ourTypeIdentifier
              (allocateIdentifiers (ourTypesOf symbol_table)
                IdentifierMachine.fresh).1 (.enum enum)))
          (fun enum => nodeIds_generate_for_enum enum
            (allocateIdentifiers (ourTypesOf symbol_table)
              IdentifierMachine.fresh).1),
        hcls.2] at hs
      have hlen : (ourTypesOf symbol_table).length
          = symbol_table.enumerations.length
            + symbol_table.classes.length := by
        simp [ourTypesOf]
      rcases List.mem_append.mp hs with hmem | hmem
      · rcases List.mem_map.mp hmem with ⟨enum, he, rfl⟩
        have hb := ourTypeIdentifier_allocated symbol_table (.enum enum)
          (List.mem_append_left _ (List.mem_map_of_mem OurType.enum he))
        exact ⟨_, rfl, hb.1, by omega⟩
      · rcases List.mem_map.mp hmem with ⟨cls, hc, rfl⟩
        have hb := ourTypeIdentifier_allocated symbol_table (.cls cls)
          (List.mem_append_right _ (List.mem_map_of_mem OurType.cls hc))
        exact ⟨_, rfl, hb.1, by omega⟩

/-- Claim C10 witness: the class emitter leaves the machine at 5000 and emits
one node, and the identifier `5000` appearing in the scenario document is in
the allocated range. -/
theorem claim_C10_witness :
    ((([Elem.mk "UADataType"
        [("NodeId", "ns=1;i=0"), ("BrowseName", "1:EntityDataType")] none
        [Elem.mk "DisplayName" [] (some "EntityDataType") [],
         Elem.mk "Description" [] (some "DataType for EntityDataType") [],
         Elem.mk "References" [] none
           [Elem.mk "Reference"
             [("ReferenceType", "HasSubtype"), ("IsForward", "false")]
             (some "i=22") []],
         Elem.mk "Definition" [("Name", "EntityDataType"), ("IsUnion", "false")]
           none []]], (5000 : IdentifierMachine))
        : List Elem × IdentifierMachine).2 = 5000 ∧
      (([Elem.mk "UADataType"
        [("NodeId", "ns=1;i=0"), ("BrowseName", "1:EntityDataType")] none
        [Elem.mk "DisplayName" [] (some "EntityDataType") [],
         Elem.mk "Description" [] (some "DataType for EntityDataType") [],
         Elem.mk "References" [] none
           [Elem.mk "Reference"
             [("ReferenceType", "HasSubtype"), ("IsForward", "false")]
             (some "i=22") []],
         Elem.mk "Definition" [("Name", "EntityDataType"), ("IsUnion", "false")]
           none []]], (5000 : IdentifierMachine))
        : List Elem × IdentifierMachine).1.length = 1) ∧
    (∃ k, ("ns=1;i=5000" : String) = "ns=1;i=" ++ toString k ∧
      5000 ≤ k ∧ k < 5000 + (example_symbol_table.enumerations.length
        + example_symbol_table.classes.length)) :=
  ⟨claim_C10_identifier_provenance.1 derived_cls [] 5000
      ([Elem.mk "UADataType"
        [("NodeId", "ns=1;i=0"), ("BrowseName", "1:EntityDataType")] none
        [Elem.mk "DisplayName" [] (some "EntityDataType") [],
         Elem.mk "Description" [] (some "DataType for EntityDataType") [],
         Elem.mk "References" [] none
           [Elem.mk "Reference"
             [("ReferenceType", "HasSubtype"), ("IsForward", "false")]
             (some "i=22") []],
         Elem.mk "Definition" [("Name", "EntityDataType"), ("IsUnion", "false")]
           none []]], 5000) rfl,
   claim_C10_identifier_provenance.2 example_symbol_table _ rfl
     "ns=1;i=5000" (by decide)⟩

end Opcua
